import Mathlib

/-!
Verification development for the AWS IID node attestor of the SPIRE
repository, together with the bundle-set CLI command.

The attestor implementation itself is not part of the excerpt (only its
test file is), so the attestor components below are modelled from the
specification (spec.md sections 3, 4 and 6), with the test file pinning
concrete messages and fixtures.  The bundle-set command
(cmd/spire-server/cli/bundle/set.go) is present in the excerpt and is
embedded directly from the source.
-/

namespace Spire

/-! ## Data model (spec section 3 and 6) -/

/-- Modelled from the spec: the parsed content of the attestation payload,
the wire format is a JSON object with the fields `document` and
`signature` (spec section 6; "aws" package type `IIDAttestationData`). -/
structure IIDAttestationData where
  document : String
  signature : String
deriving DecidableEq, Repr

/-- Modelled from the spec: the parsed content of `document` — the
`InstanceClaim` with `accountId`, `instanceId`, `region` fields (spec
sections 3 and 6; "aws" package type `InstanceIdentityDocument`). -/
structure InstanceIdentityDocument where
  accountId : String
  instanceId : String
  region : String
deriving DecidableEq, Repr

/-- Modelled from the spec: the `CrossCheckResult` — the subset of the
cloud inventory record needed for verification: the device index of the
first network attachment and the root storage type (spec section 3). -/
structure CrossCheckResult where
  firstDeviceIndex : Int
  rootStorageType : String
deriving DecidableEq, Repr

/-- Modelled from the spec: the `VerifiedIdentity` — a structured identity
name plus a validity flag (spec section 3). -/
structure VerifiedIdentity where
  baseSPIFFEID : String
  valid : Bool
deriving DecidableEq, Repr

/-- Modelled from the spec: the typed failures of the attestation
operation (spec sections 4.2, 4.3, 4.5 and 7). -/
inductive AttestError where
  | notConfigured
  | missingPayload
  | unsupportedType (t : String)
  | replay
  | malformedPayload
  | signatureEncoding
  | signatureVerification
  | malformedDocument
  | inventoryQuery (msg : String)
  | deviceIndex
  | storageDevice
deriving DecidableEq, Repr

/-- Modelled from the spec: the human-readable message attached to each
typed attestation failure, pinned by the test file where the tests check
message substrings. -/
def attestErrorMessage : AttestError → String
  | .notConfigured => "not configured"
  | .missingPayload => "request missing attestation data"
  | .unsupportedType t => "unexpected attestation data type \"" ++ t ++ "\""
  | .replay => "the IID has been used and is no longer valid"
  | .malformedPayload => "unexpected end of JSON input"
  | .signatureEncoding => "illegal base64 data at input byte"
  | .signatureVerification => "error verifying the cryptographic signature"
  | .malformedDocument => "error parsing the instance identity document"
  | .inventoryQuery msg => msg
  | .deviceIndex => "verifying the EC2 instance's NetworkInterface[0].DeviceIndex is 0"
  | .storageDevice => "failed to verify the EC2 instance's root storage device"

/-! ## Base64 (standard encoding with padding)

Modelled from the spec: the `signature` field is base64-standard-encoded
(spec section 3); decoding an empty string succeeds with zero bytes, a
character outside the base64 alphabet is an encoding error (spec
sections 4.2 and design note on the empty signature). -/

/-- Value of one character of the standard base64 alphabet, `none` when
the character is outside the alphabet. -/
def base64Val (c : Char) : Option Nat :=
  if 65 ≤ c.toNat ∧ c.toNat ≤ 90 then some (c.toNat - 65)
  else if 97 ≤ c.toNat ∧ c.toNat ≤ 122 then some (c.toNat - 71)
  else if 48 ≤ c.toNat ∧ c.toNat ≤ 57 then some (c.toNat + 4)
  else if c = '+' then some 62
  else if c = '/' then some 63
  else none

/-- Decode base64 characters in groups of four, with `=` padding allowed
only in the final group; an input whose length is not a multiple of four
fails. -/
def base64DecodeAux : List Char → Option (List Nat)
  | [] => some []
  | a :: b :: c :: d :: rest =>
    match base64Val a, base64Val b with
    | some va, some vb =>
      if c = '=' then
        if d = '=' ∧ rest = [] then some [va * 4 + vb / 16] else none
      else
        match base64Val c with
        | some vc =>
          if d = '=' then
            if rest = [] then some [va * 4 + vb / 16, (vb % 16) * 16 + vc / 4] else none
          else
            match base64Val d with
            | some vd =>
              match base64DecodeAux rest with
              | some bs =>
                some ((va * 4 + vb / 16) :: ((vb % 16) * 16 + vc / 4) :: ((vc % 4) * 64 + vd) :: bs)
              | none => none
            | none => none
        | none => none
    | _, _ => none
  | _ => none

/-- Modelled from the spec: standard base64 decoding of the signature
field; `none` is the `SignatureEncodingError` case, and the empty string
decodes successfully to zero bytes. -/
def base64Decode (s : String) : Option (List Nat) :=
  base64DecodeAux s.data

/-! ## A JSON object-of-strings parser

Modelled from the spec: both the outer envelope and the inner document
are JSON objects whose relevant fields are strings (spec section 6), so
the embedding parses exactly that shape: an object literal with string
keys and string values. -/

/-- Whitespace recognized between JSON tokens. -/
def isJsonWs (c : Char) : Bool :=
  c = ' ' ∨ c = '\t' ∨ c = '\n' ∨ c = '\r'

/-- Drop leading JSON whitespace. -/
def skipWs : List Char → List Char
  | [] => []
  | c :: rest => if isJsonWs c then skipWs rest else c :: rest

/-- Resolve one escaped character of a JSON string body. -/
def jsonUnescape (c : Char) : Option Char :=
  if c = '"' then some '"'
  else if c = '\\' then some '\\'
  else if c = '/' then some '/'
  else if c = 'n' then some '\n'
  else if c = 't' then some '\t'
  else if c = 'r' then some '\r'
  else none

/-- Parse the body of a JSON string up to (and consuming) the closing
quote; the opening quote has already been consumed. -/
def parseJsonStringBody : List Char → Option (List Char × List Char)
  | [] => none
  | c :: rest =>
    if c = '"' then some ([], rest)
    else if c = '\\' then
      match rest with
      | [] => none
      | e :: rest2 =>
        match jsonUnescape e with
        | none => none
        | some u =>
          match parseJsonStringBody rest2 with
          | none => none
          | some (body, rem) => some (u :: body, rem)
    else
      match parseJsonStringBody rest with
      | none => none
      | some (body, rem) => some (c :: body, rem)

/-- Parse a quoted JSON string at the head of the input. -/
def parseJsonString (l : List Char) : Option (String × List Char) :=
  match l with
  | [] => none
  | c :: rest =>
    if c = '"' then
      match parseJsonStringBody rest with
      | none => none
      | some (body, rem) => some (String.mk body, rem)
    else none

/-- Parse the members of a JSON object after the opening brace, through
the closing brace; fuel bounds the recursion. -/
def parseJsonMembers : Nat → List Char → Option (List (String × String) × List Char)
  | 0, _ => none
  | fuel + 1, l =>
    match skipWs l with
    | '\x7d' :: rest => some ([], rest)
    | l1 =>
      match parseJsonString l1 with
      | none => none
      | some (key, r1) =>
        match skipWs r1 with
        | ':' :: r2 =>
          match parseJsonString (skipWs r2) with
          | none => none
          | some (value, r3) =>
            match skipWs r3 with
            | ',' :: r4 =>
              match parseJsonMembers fuel r4 with
              | none => none
              | some (kvs, rem) => some ((key, value) :: kvs, rem)
            | '\x7d' :: r4 => some ([(key, value)], r4)
            | _ => none
        | _ => none

/-- Parse an entire JSON object of string fields, requiring the input to
be exhausted afterwards. -/
def parseStringObject (s : String) : Option (List (String × String)) :=
  match skipWs s.data with
  | '\x7b' :: rest =>
    match parseJsonMembers (rest.length + 1) rest with
    | none => none
    | some (kvs, rem) => if skipWs rem = [] then some kvs else none
  | _ => none

/-- Modelled from the spec: parsing of the outer attestation-payload
envelope `\x7b"document": ..., "signature": ...\x7d`; failure is the
`MalformedPayloadError` case (spec sections 4.2 and 6). -/
def parseAttestationData (s : String) : Option IIDAttestationData :=
  match parseStringObject s with
  | none => none
  | some kvs =>
    match kvs.lookup "document", kvs.lookup "signature" with
    | some d, some sg => some ⟨d, sg⟩
    | _, _ => none

/-- Modelled from the spec: parsing of the inner instance identity
document into the three claim fields; failure is the
`MalformedDocumentError` case (spec sections 4.2 and 6). -/
def parseInstanceIdentityDocument (s : String) : Option InstanceIdentityDocument :=
  match parseStringObject s with
  | none => none
  | some kvs =>
    match kvs.lookup "accountId", kvs.lookup "instanceId", kvs.lookup "region" with
    | some a, some i, some r => some ⟨a, i, r⟩
    | _, _, _ => none

/-! ## Identity-name template (spec sections 4.1 and 4.4)

Modelled from the spec: a named-mapping template language supporting the
four fields `PluginName`, `AccountID`, `Region`, `InstanceID`; an action
is written as a dotted field name between double braces, with optional
surrounding spaces; anything else is literal text. -/

/-- One compiled part of an identity-name template. -/
inductive TemplatePart where
  | lit (c : Char)
  | fieldPluginName
  | fieldAccountID
  | fieldRegion
  | fieldInstanceID
deriving DecidableEq, Repr

/-- The four named fields available to identity-name templates. -/
def fieldOfName (s : String) : Option TemplatePart :=
  if s = "PluginName" then some .fieldPluginName
  else if s = "AccountID" then some .fieldAccountID
  else if s = "Region" then some .fieldRegion
  else if s = "InstanceID" then some .fieldInstanceID
  else none

/-- Character allowed in a template field name. -/
def isIdentChar (c : Char) : Bool :=
  (65 ≤ c.toNat ∧ c.toNat ≤ 90) ∨ (97 ≤ c.toNat ∧ c.toNat ≤ 122) ∨
    (48 ≤ c.toNat ∧ c.toNat ≤ 57) ∨ c = '_'

/-- Split the longest identifier prefix off the input. -/
def takeIdent : List Char → List Char × List Char
  | [] => ([], [])
  | c :: rest =>
    if isIdentChar c then
      match takeIdent rest with
      | (name, rem) => (c :: name, rem)
    else ([], c :: rest)

/-- Drop leading spaces and tabs. -/
def skipSpaces : List Char → List Char
  | [] => []
  | c :: rest => if c = ' ' ∨ c = '\t' then skipSpaces rest else c :: rest

/-- Compile a template: double-brace actions must hold a dot followed by
one of the four known field names; fuel bounds the recursion. -/
def parseTemplateAux : Nat → List Char → Option (List TemplatePart)
  | 0, _ => none
  | _ + 1, [] => some []
  | fuel + 1, '\x7b' :: '\x7b' :: rest =>
    (match skipSpaces rest with
    | '.' :: r2 =>
      match takeIdent r2 with
      | (name, r3) =>
        match skipSpaces r3 with
        | '\x7d' :: '\x7d' :: r5 =>
          match fieldOfName (String.mk name) with
          | some f =>
            match parseTemplateAux fuel r5 with
            | some parts => some (f :: parts)
            | none => none
          | none => none
        | _ => none
    | _ => none)
  | fuel + 1, c :: rest =>
    match parseTemplateAux fuel rest with
    | some parts => some (.lit c :: parts)
    | none => none

/-- Modelled from the spec: compilation of the `agent_path_template`
configuration value; `none` is the `TemplateCompileError` case (spec
section 4.1). -/
def parseTemplate (s : String) : Option (List TemplatePart) :=
  parseTemplateAux (s.data.length + 1) s.data

/-- Modelled from the spec: the fixed plugin name `aws_iid` used both as
the attestation-data type tag and as the template `PluginName` field. -/
def pluginName : String := "aws_iid"

/-- Modelled from the spec: the default identity-name template (spec
section 4.1). -/
def defaultAgentPathTemplate : String :=
  "\x7b\x7b .PluginName \x7d\x7d/\x7b\x7b .AccountID \x7d\x7d/\x7b\x7b .Region \x7d\x7d/\x7b\x7b .InstanceID \x7d\x7d"

/-- The compiled form of the default identity-name template. -/
def defaultTemplateParts : List TemplatePart :=
  [.fieldPluginName, .lit '/', .fieldAccountID, .lit '/', .fieldRegion, .lit '/', .fieldInstanceID]

/-- The values the four template fields render to. -/
structure TemplateValues where
  pluginNameVal : String
  accountID : String
  region : String
  instanceID : String
deriving DecidableEq, Repr

/-- Characters contributed by one template part. -/
def renderPartChars (v : TemplateValues) : TemplatePart → List Char
  | .lit c => [c]
  | .fieldPluginName => v.pluginNameVal.data
  | .fieldAccountID => v.accountID.data
  | .fieldRegion => v.region.data
  | .fieldInstanceID => v.instanceID.data

/-- Modelled from the spec: rendering a compiled template over the
template values; pure and total (spec section 4.4). -/
def renderTemplate (parts : List TemplatePart) (v : TemplateValues) : String :=
  String.mk (parts.foldr (fun p acc => renderPartChars v p ++ acc) [])

/-- Modelled from the spec: the Identity Renderer — the verified claim
fields rendered through the compiled template and prefixed with the
SPIFFE agent namespace of the configured trust domain (spec sections 4.4
and 8, concrete scenarios). -/
def renderIdentityName (trustDomain : String) (parts : List TemplatePart)
    (doc : InstanceIdentityDocument) : String :=
  "spiffe://" ++ trustDomain ++ "/spire/agent/" ++
    renderTemplate parts ⟨pluginName, doc.accountId, doc.region, doc.instanceId⟩

/-! ## Configuration text (spec sections 4.1 and 6)

Modelled from the spec: the configuration is structured key/value text
with the recognized options `access_key_id`, `secret_access_key`,
`agent_path_template`, `skip_ec2_attest_calling`, `skip_block_device`;
string values are quoted, boolean values are bare `true`/`false`. -/

/-- The raw option values found in the configuration text. -/
structure IIDAttestorConfig where
  accessKeyID : Option String := none
  secretAccessKey : Option String := none
  agentPathTemplate : Option String := none
  skipEC2AttestCalling : Bool := false
  skipBlockDevice : Bool := false
deriving DecidableEq, Repr

/-- One parsed configuration value: a quoted string or a bare boolean. -/
inductive ConfigValue where
  | strVal (s : String)
  | boolVal (b : Bool)
deriving DecidableEq, Repr

/-- Split the configuration text at line breaks. -/
def splitLines : List Char → List (List Char)
  | [] => [[]]
  | c :: rest =>
    if c = '\n' then [] :: splitLines rest
    else
      match splitLines rest with
      | l :: ls => (c :: l) :: ls
      | [] => [[c]]

/-- Drop trailing spaces and tabs. -/
def trimRight (l : List Char) : List Char :=
  (skipSpaces l.reverse).reverse

/-- Parse a value: a double-quoted string without escapes, or a bare
`true`/`false`. -/
def parseConfigValue (l : List Char) : Option (ConfigValue × List Char) :=
  match l with
  | '"' :: rest =>
    match parseJsonStringBody rest with
    | none => none
    | some (body, rem) => some (.strVal (String.mk body), rem)
  | _ =>
    match takeIdent l with
    | (name, rem) =>
      if String.mk name = "true" then some (.boolVal true, rem)
      else if String.mk name = "false" then some (.boolVal false, rem)
      else none

/-- Parse one nonempty configuration line into a key/value pair. -/
def parseConfigLine (l : List Char) : Option (String × ConfigValue) :=
  match takeIdent (skipSpaces l) with
  | ([], _) => none
  | (key, r1) =>
    match skipSpaces r1 with
    | '=' :: r2 =>
      match parseConfigValue (skipSpaces r2) with
      | none => none
      | some (v, rem) => if skipSpaces rem = [] then some (String.mk key, v) else none
    | _ => none

/-- Record one key/value pair into the option record; a recognized key
with a value of the wrong shape is a syntax error, an unrecognized key is
ignored. -/
def applyConfigLine (cfg : IIDAttestorConfig) (key : String) (v : ConfigValue) :
    Option IIDAttestorConfig :=
  if key = "access_key_id" then
    match v with
    | .strVal s => some { cfg with accessKeyID := some s }
    | _ => none
  else if key = "secret_access_key" then
    match v with
    | .strVal s => some { cfg with secretAccessKey := some s }
    | _ => none
  else if key = "agent_path_template" then
    match v with
    | .strVal s => some { cfg with agentPathTemplate := some s }
    | _ => none
  else if key = "skip_ec2_attest_calling" then
    match v with
    | .boolVal b => some { cfg with skipEC2AttestCalling := b }
    | _ => none
  else if key = "skip_block_device" then
    match v with
    | .boolVal b => some { cfg with skipBlockDevice := b }
    | _ => none
  else some cfg

/-- Fold the configuration lines into an option record. -/
def parseConfigLines (cfg : IIDAttestorConfig) : List (List Char) → Option IIDAttestorConfig
  | [] => some cfg
  | l :: rest =>
    match trimRight (skipSpaces l) with
    | [] => parseConfigLines cfg rest
    | l1 =>
      match parseConfigLine l1 with
      | none => none
      | some (key, v) =>
        match applyConfigLine cfg key v with
        | none => none
        | some cfg2 => parseConfigLines cfg2 rest

/-- Modelled from the spec: parsing of the structured configuration text;
`none` is the `ConfigSyntaxError` case (spec section 4.1). -/
def parseConfigText (s : String) : Option IIDAttestorConfig :=
  parseConfigLines {} (splitLines s.data)

/-! ## Config Resolver (spec section 4.1) -/

/-- Modelled from the spec: the typed failures of the Config Resolver
(spec section 4.1), with the messages the test file pins. -/
inductive ConfigError where
  | configSyntax
  | missingGlobalConfig (msg : String)
  | credentialMismatch (msg : String)
  | templateCompile
deriving DecidableEq, Repr

/-- Modelled from the spec: the names of the environment variables
consulted as credential fallback. -/
def accessKeyIDVarName : String := "AWS_ACCESS_KEY_ID"

/-- Modelled from the spec: the name of the secret-key fallback
environment variable. -/
def secretAccessKeyVarName : String := "AWS_SECRET_ACCESS_KEY"

/-- Modelled from the spec: the embedded provider signing certificate's
public key, a build-time constant handle (spec section 6). -/
def awsCaCertPublicKeyHandle : Nat := 0

/-- Modelled from the spec: the immutable `PluginConfig` snapshot (spec
section 3). -/
structure PluginConfig where
  trustDomain : String
  pathTemplate : List TemplatePart
  skipEC2 : Bool
  skipBlockDevice : Bool
  credentials : Option (String × String)
  awsCaCertPublicKey : Nat
deriving DecidableEq, Repr

/-- Modelled from the spec: credential resolution — the explicit
configuration values are required together or absent together, and the
environment is consulted only when the configuration supplies neither
field (spec section 4.1). -/
def resolveCredentials (getEnv : String → String) (cfg : IIDAttestorConfig) :
    Except ConfigError (Option (String × String)) :=
  match cfg.accessKeyID, cfg.secretAccessKey with
  | some a, some s => .ok (some (a, s))
  | some _, none =>
    .error (.credentialMismatch "configuration missing secret access key, but has access key id")
  | none, some _ =>
    .error (.credentialMismatch "configuration missing access key id, but has secret access key")
  | none, none =>
    let a := getEnv accessKeyIDVarName
    let s := getEnv secretAccessKeyVarName
    .ok (if a ≠ "" ∧ s ≠ "" then some (a, s) else none)

/-- The global configuration supplied by the host environment. -/
structure GlobalConfig where
  trustDomain : String
deriving DecidableEq, Repr

/-- One Configure request: the plugin configuration text and the optional
global configuration. -/
structure ConfigureRequest where
  configuration : String
  globalConfig : Option GlobalConfig
deriving DecidableEq, Repr

/-- Modelled from the spec: the Config Resolver — parses the plugin
configuration, checks the global trust domain, resolves the credential
material and compiles the identity-name template (spec section 4.1, in
the order its contract lists the failure modes). -/
def configure (getEnv : String → String) (req : ConfigureRequest) :
    Except ConfigError PluginConfig :=
  match parseConfigText req.configuration with
  | none => .error .configSyntax
  | some hcl =>
    match req.globalConfig with
    | none => .error (.missingGlobalConfig "global configuration is required")
    | some gc =>
      if gc.trustDomain = "" then .error (.missingGlobalConfig "trust_domain is required")
      else
        match resolveCredentials getEnv hcl with
        | .error e => .error e
        | .ok creds =>
          match parseTemplate (hcl.agentPathTemplate.getD defaultAgentPathTemplate) with
          | none => .error .templateCompile
          | some parts =>
            .ok ⟨gc.trustDomain, parts, hcl.skipEC2AttestCalling, hcl.skipBlockDevice,
              creds, awsCaCertPublicKeyHandle⟩

/-! ## Signature Verifier (spec section 4.2) -/

/-- Modelled from the spec: the SHA-256 / PKCS#1 v1.5 RSA verification
primitive, abstracted as a capability over the trust-anchor handle, the
exact document bytes and the decoded signature bytes; a zero-length
signature is always rejected by the cryptographic check, which is the
property the spec's design note on empty signatures relies on. -/
structure SigVerifier where
  verify : Nat → String → List Nat → Bool
  verify_nil : ∀ key doc, verify key doc [] = false

/-- Modelled from the spec: the Signature Verifier — parse the outer
envelope, base64-decode the signature, verify it cryptographically over
the exact document bytes, then parse the inner document into the claim
fields (spec section 4.2). -/
def signatureVerifier (V : SigVerifier) (key : Nat) (payload : String) :
    Except AttestError InstanceIdentityDocument :=
  match parseAttestationData payload with
  | none => .error .malformedPayload
  | some ad =>
    match base64Decode ad.signature with
    | none => .error .signatureEncoding
    | some sigBytes =>
      if V.verify key ad.document sigBytes then
        match parseInstanceIdentityDocument ad.document with
        | none => .error .malformedDocument
        | some doc => .ok doc
      else .error .signatureVerification

/-! ## Cross-Check Evaluator (spec section 4.3) -/

/-- Modelled from the spec: the Cloud Inventory Client capability — a
single describe-instance query keyed by the claimed instance identifier,
returning the cross-check subset of the inventory record or the
provider's error text (spec section 6). -/
def EC2Client : Type := String → Except String CrossCheckResult

/-- Modelled from the spec: the root-storage policy predicate of the
storage-device sub-check; the spec leaves the exact decision rule
configurable, so the embedding takes it as a parameter (spec sections 4.3
and 9, open question on the block-device policy). -/
def StoragePolicy : Type := String → Bool

/-- Modelled from the spec: the Cross-Check Evaluator — skip entirely
when the toggle is set, otherwise issue one describe-instance query,
require the first network attachment's device index to be exactly zero,
and, unless the storage sub-check is skipped, require the root storage
type to satisfy the storage policy (spec section 4.3). -/
def crossCheck (policy : StoragePolicy) (client : EC2Client) (cfg : PluginConfig)
    (instanceID : String) : Except AttestError Unit :=
  if cfg.skipEC2 then .ok ()
  else
    match client instanceID with
    | .error e => .error (.inventoryQuery e)
    | .ok r =>
      if r.firstDeviceIndex ≠ 0 then .error .deviceIndex
      else if cfg.skipBlockDevice then .ok ()
      else if policy r.rootStorageType then .ok ()
      else .error .storageDevice

/-! ## Attestation Orchestrator (spec section 4.5) -/

/-- The attestation data of one request: the declared type tag and the
opaque payload bytes. -/
structure AttestationData where
  dataType : String
  data : String
deriving DecidableEq, Repr

/-- One attestation request: optional attestation data plus the
caller-supplied previously-attested flag. -/
structure AttestRequest where
  attestationData : Option AttestationData
  attestedBefore : Bool
deriving DecidableEq, Repr

/-- Ghost instrumentation of one attestation attempt: whether the
Signature Verifier was reached and whether an inventory query was
issued. -/
structure AttestTrace where
  verifierReached : Bool
  inventoryQueried : Bool
deriving DecidableEq, Repr

/-- Modelled from the spec: the Attestation Orchestrator in the
`Configured` state — replay check first, then payload presence, type tag,
Signature Verifier, Cross-Check Evaluator and Identity Renderer, each
failure propagated as its typed error (spec section 4.5). -/
def attestConfigured (V : SigVerifier) (policy : StoragePolicy) (client : EC2Client)
    (cfg : PluginConfig) (req : AttestRequest) :
    Except AttestError VerifiedIdentity × AttestTrace :=
  if req.attestedBefore then (.error .replay, ⟨false, false⟩)
  else
    match req.attestationData with
    | none => (.error .missingPayload, ⟨false, false⟩)
    | some ad =>
      if ad.dataType ≠ pluginName then (.error (.unsupportedType ad.dataType), ⟨false, false⟩)
      else
        match signatureVerifier V cfg.awsCaCertPublicKey ad.data with
        | .error e => (.error e, ⟨true, false⟩)
        | .ok doc =>
          match crossCheck policy client cfg doc.instanceId with
          | .error e => (.error e, ⟨true, !cfg.skipEC2⟩)
          | .ok _ =>
            (.ok ⟨renderIdentityName cfg.trustDomain cfg.pathTemplate doc, true⟩,
              ⟨true, !cfg.skipEC2⟩)

/-- Modelled from the spec: the plugin-level attestation entry point —
`none` is the `Idle` state, in which every attempt fails with
`NotConfiguredError` (spec section 4.5). -/
def attestPlugin (V : SigVerifier) (policy : StoragePolicy) (client : EC2Client)
    (state : Option PluginConfig) (req : AttestRequest) :
    Except AttestError VerifiedIdentity × AttestTrace :=
  match state with
  | none => (.error .notConfigured, ⟨false, false⟩)
  | some cfg => attestConfigured V policy client cfg req

/-- Modelled from the spec: the configuration transition of the plugin
state machine — a successful Config Resolver run replaces the state
wholesale, a failed one leaves it unchanged (spec sections 4.1 and
4.5). -/
def pluginConfigure (state : Option PluginConfig) (getEnv : String → String)
    (req : ConfigureRequest) : Except ConfigError Unit × Option PluginConfig :=
  match configure getEnv req with
  | .ok cfg => (.ok (), some cfg)
  | .error e => (.error e, state)

/-! ## The bundle-set CLI command

Embedded from cmd/spire-server/cli/bundle/set.go.  The command's
collaborators (SPIFFE-ID normalization, reading the bundle data,
certificate parsing, and the three registration API calls) are injected
capabilities, matching the `env`/`clients` parameters of
`setCommand.run`. -/

/-- The flags of the `bundle set` command (set.go, `setCommand`). -/
structure SetCommand where
  id : String
  path : String
deriving DecidableEq, Repr

/-- The federated bundle record passed to the registration API
(set.go lines 68-71): the normalized SPIFFE ID and the concatenated raw
certificate bytes. -/
structure FederatedBundle where
  spiffeId : String
  caCerts : List Nat
deriving DecidableEq, Repr

/-- The non-registration collaborators of `setCommand.run`:
`idutil.NormalizeSpiffeID`, `loadParamData` (stdin or file) and
`pemutil.ParseCertificates` (each certificate as its raw bytes). -/
structure SetEnvironment where
  normalizeSpiffeID : String → Except String String
  loadParamData : Except String String
  parseCertificates : String → Except String (List (List Nat))

/-- The registration API client of `setCommand.run`. -/
structure SetClients where
  fetchFederatedBundle : String → Except String Unit
  createFederatedBundle : FederatedBundle → Except String Unit
  updateFederatedBundle : FederatedBundle → Except String Unit

/-- Ghost instrumentation of one `bundle set` run: which registration API
calls were issued. -/
structure SetTrace where
  fetchCalled : Bool
  createCalled : Bool
  updateCalled : Bool
deriving DecidableEq, Repr

/-- Embedded from set.go, `setCommand.run`: require a nonempty `-id`,
normalize it, load and parse the bundle data, then fetch the existing
federated bundle keyed by the raw flag value — on any fetch error create
the bundle, on fetch success update it. -/
def setRun (env : SetEnvironment) (clients : SetClients) (c : SetCommand) :
    Except String Unit × SetTrace :=
  if c.id = "" then (.error "id is required", ⟨false, false, false⟩)
  else
    match env.normalizeSpiffeID c.id with
    | .error e => (.error e, ⟨false, false, false⟩)
    | .ok id =>
      match env.loadParamData with
      | .error e => (.error ("unable to load bundle data: " ++ e), ⟨false, false, false⟩)
      | .ok dat =>
        match env.parseCertificates dat with
        | .error e => (.error ("invalid bundle data: " ++ e), ⟨false, false, false⟩)
        | .ok certs =>
          let bundle : FederatedBundle := ⟨id, certs.flatten⟩
          match clients.fetchFederatedBundle c.id with
          | .ok _ =>
            match clients.updateFederatedBundle bundle with
            | .ok _ => (.ok (), ⟨true, false, true⟩)
            | .error e => (.error e, ⟨true, false, true⟩)
          | .error _ =>
            match clients.createFederatedBundle bundle with
            | .ok _ => (.ok (), ⟨true, true, false⟩)
            | .error e => (.error e, ⟨true, true, false⟩)

/-! ## Shared fixtures and helper lemmas -/

/-- The test suite's claim fixture: account `test-account`, instance
`test-instance`, region `test-region`. -/
def testDoc : InstanceIdentityDocument :=
  ⟨"test-account", "test-instance", "test-region"⟩

/-- The JSON form of the fixture instance identity document. -/
def testDocJson : String :=
  "\x7b\"accountId\":\"test-account\",\"instanceId\":\"test-instance\",\"region\":\"test-region\"\x7d"

/-- A complete attestation payload: the fixture document (as an escaped
JSON string) with the well-formed base64 signature `AAAA`. -/
def testPayload : String :=
  "\x7b\"document\":\"\x7b\\\"accountId\\\":\\\"test-account\\\",\\\"instanceId\\\":\\\"test-instance\\\",\\\"region\\\":\\\"test-region\\\"\x7d\",\"signature\":\"AAAA\"\x7d"

/-- A payload whose signature field is not valid base64. -/
def badSigPayload : String :=
  "\x7b\"document\":\"d\",\"signature\":\"bad sig\"\x7d"

/-- A verification capability that accepts every nonempty signature;
it satisfies the interface since a zero-length signature is rejected. -/
def passVerifier : SigVerifier :=
  ⟨fun _ _ bs => !bs.isEmpty, fun _ _ => rfl⟩

/-- A client whose sole network attachment has device index zero and an
EBS root. -/
def okClient : EC2Client := fun _ => .ok ⟨0, "ebs"⟩

/-- A client whose first network attachment has a nonzero device
index. -/
def badIndexClient : EC2Client := fun _ => .ok ⟨1, "ebs"⟩

/-- The configuration produced by an empty configuration text under
trust domain `example.org`. -/
def basePluginConfig : PluginConfig :=
  ⟨"example.org", defaultTemplateParts, false, false, none, awsCaCertPublicKeyHandle⟩

/-- The base configuration with the cloud cross-check disabled. -/
def skipEC2Config : PluginConfig :=
  ⟨"example.org", defaultTemplateParts, true, false, none, awsCaCertPublicKeyHandle⟩

/-- A well-formed attestation request over the fixture payload. -/
def validRequest : AttestRequest := ⟨some ⟨pluginName, testPayload⟩, false⟩

/-- Rendering the default template gives the slash-joined plugin name,
account, region and instance. -/
theorem renderIdentityName_default (td : String) (doc : InstanceIdentityDocument) :
    renderIdentityName td defaultTemplateParts doc =
      "spiffe://" ++ td ++ "/spire/agent/aws_iid/" ++ doc.accountId ++ "/" ++
        doc.region ++ "/" ++ doc.instanceId := by
  apply String.ext
  simp [renderIdentityName, renderTemplate, defaultTemplateParts, renderPartChars,
    pluginName, String.data_append]

/-- Claim C1: with the previously-attested flag set, attestation returns
the replay error — whose message says the IID has been used and is no
longer valid — for every payload, configuration, verification capability
and inventory client, and the Signature Verifier is never reached (the
trace records no component past the replay check). -/
theorem claim_C1 (V : SigVerifier) (policy : StoragePolicy) (client : EC2Client)
    (cfg : PluginConfig) (req : AttestRequest) (h : req.attestedBefore = true) :
    attestConfigured V policy client cfg req = (.error .replay, ⟨false, false⟩) ∧
    attestErrorMessage .replay = "the IID has been used and is no longer valid" := by
  constructor
  · simp [attestConfigured, h]
  · rfl

/-- Witness for C1: the cryptographically well-formed fixture request
with the previously-attested flag set is rejected as a replay. -/
theorem claim_C1_witness :
    (AttestRequest.mk (some ⟨pluginName, testPayload⟩) true).attestedBefore = true ∧
    attestConfigured passVerifier (fun _ => true) okClient basePluginConfig
      ⟨some ⟨pluginName, testPayload⟩, true⟩ = (.error .replay, ⟨false, false⟩) ∧
    attestErrorMessage .replay = "the IID has been used and is no longer valid" := by
  refine ⟨rfl, ?_⟩
  exact claim_C1 passVerifier (fun _ => true) okClient basePluginConfig
    ⟨some ⟨pluginName, testPayload⟩, true⟩ rfl

/-- Claim C2: a fresh, well-typed payload whose envelope parses, whose
signature decodes and verifies over the exact document bytes under the
configured trust anchor, whose document parses into the claim fields,
with the cloud cross-check enabled, the sole network attachment at device
index zero, the block-device check enabled and the root storage type
accepted by the configured storage policy, attests as Valid with identity
name equal to the default template rendered over the claim's account,
region and instance fields. -/
theorem claim_C2 (V : SigVerifier) (policy : StoragePolicy) (client : EC2Client)
    (cfg : PluginConfig) (req : AttestRequest) (payload : String)
    (ad : IIDAttestationData) (doc : InstanceIdentityDocument) (sigBytes : List Nat)
    (r : CrossCheckResult)
    (hreplay : req.attestedBefore = false)
    (hdata : req.attestationData = some ⟨pluginName, payload⟩)
    (hparse : parseAttestationData payload = some ad)
    (hdecode : base64Decode ad.signature = some sigBytes)
    (hverify : V.verify cfg.awsCaCertPublicKey ad.document sigBytes = true)
    (hdoc : parseInstanceIdentityDocument ad.document = some doc)
    (hskip : cfg.skipEC2 = false)
    (hblock : cfg.skipBlockDevice = false)
    (hclient : client doc.instanceId = .ok r)
    (hidx : r.firstDeviceIndex = 0)
    (hpolicy : policy r.rootStorageType = true)
    (htmpl : cfg.pathTemplate = defaultTemplateParts) :
    attestConfigured V policy client cfg req =
      (.ok ⟨"spiffe://" ++ cfg.trustDomain ++ "/spire/agent/aws_iid/" ++ doc.accountId ++
          "/" ++ doc.region ++ "/" ++ doc.instanceId, true⟩, ⟨true, true⟩) := by
  simp [attestConfigured, signatureVerifier, crossCheck, hreplay, hdata, hparse, hdecode,
    hverify, hdoc, hskip, hblock, hclient, hidx, hpolicy, htmpl, renderIdentityName_default]

set_option maxRecDepth 10000 in
/-- Witness for C2: the fixture payload signed with `AAAA` under a
capability accepting it, queried against a zero-device-index EBS-rooted
instance with both checks enabled, yields the expected SPIFFE ID. -/
theorem claim_C2_witness :
    validRequest.attestedBefore = false ∧
    validRequest.attestationData = some ⟨pluginName, testPayload⟩ ∧
    parseAttestationData testPayload = some ⟨testDocJson, "AAAA"⟩ ∧
    base64Decode "AAAA" = some [0, 0, 0] ∧
    passVerifier.verify basePluginConfig.awsCaCertPublicKey testDocJson [0, 0, 0] = true ∧
    parseInstanceIdentityDocument testDocJson = some testDoc ∧
    basePluginConfig.skipEC2 = false ∧
    basePluginConfig.skipBlockDevice = false ∧
    okClient testDoc.instanceId = .ok ⟨0, "ebs"⟩ ∧
    (CrossCheckResult.mk 0 "ebs").firstDeviceIndex = 0 ∧
    (fun _ => true : StoragePolicy) (CrossCheckResult.mk 0 "ebs").rootStorageType = true ∧
    basePluginConfig.pathTemplate = defaultTemplateParts ∧
    attestConfigured passVerifier (fun _ => true) okClient basePluginConfig validRequest =
      (.ok ⟨"spiffe://" ++ basePluginConfig.trustDomain ++ "/spire/agent/aws_iid/" ++
          testDoc.accountId ++ "/" ++ testDoc.region ++ "/" ++ testDoc.instanceId, true⟩,
        ⟨true, true⟩) := by
  refine ⟨rfl, rfl, by decide, by decide, by decide, by decide, rfl, rfl, rfl, rfl, rfl, rfl, ?_⟩
  exact claim_C2 passVerifier (fun _ => true) okClient basePluginConfig validRequest
    testPayload ⟨testDocJson, "AAAA"⟩ testDoc [0, 0, 0] ⟨0, "ebs"⟩
    rfl rfl (by decide) (by decide) (by decide) (by decide) rfl rfl rfl rfl rfl rfl

/-- Claim C3: for a payload whose signature field is not valid base64 the
Signature Verifier fails with the encoding error; for a signature that is
valid base64 but whose decoded bytes fail the cryptographic check it
fails with the verification error; the empty signature decodes
successfully to zero bytes and therefore fails at the
cryptographic-verification step, not the decoding step. -/
theorem claim_C3 (V : SigVerifier) (key : Nat) (payload : String)
    (ad : IIDAttestationData) (hparse : parseAttestationData payload = some ad) :
    (base64Decode ad.signature = none →
      signatureVerifier V key payload = .error .signatureEncoding) ∧
    (∀ bs, base64Decode ad.signature = some bs → V.verify key ad.document bs = false →
      signatureVerifier V key payload = .error .signatureVerification) ∧
    (ad.signature = "" →
      signatureVerifier V key payload = .error .signatureVerification) ∧
    base64Decode "" = some [] := by
  refine ⟨?_, ?_, ?_, rfl⟩
  · intro hdec
    simp [signatureVerifier, hparse, hdec]
  · intro bs hdec hver
    simp [signatureVerifier, hparse, hdec, hver]
  · intro hempty
    have hdec : base64Decode ad.signature = some [] := by rw [hempty]; rfl
    simp [signatureVerifier, hparse, hdec, V.verify_nil]

/-- Witness for C3: the fixture payload carrying the signature
`bad sig` — which contains a character outside the base64 alphabet —
fails with the encoding error. -/
theorem claim_C3_witness :
    parseAttestationData badSigPayload = some ⟨"d", "bad sig"⟩ ∧
    base64Decode "bad sig" = none ∧
    signatureVerifier passVerifier 0 badSigPayload = .error .signatureEncoding := by
  refine ⟨by decide, by decide, ?_⟩
  exact (claim_C3 passVerifier 0 badSigPayload ⟨"d", "bad sig"⟩ (by decide)).1 (by decide)

/-- Claim C4: whenever the cloud cross-check runs and the inventory
result's first network attachment has a device index other than zero,
the Cross-Check Evaluator fails with the device-index error, for every
storage policy, every root storage type and either setting of the
block-device toggle. -/
theorem claim_C4 (policy : StoragePolicy) (client : EC2Client) (cfg : PluginConfig)
    (instanceID : String) (r : CrossCheckResult)
    (hskip : cfg.skipEC2 = false) (hclient : client instanceID = .ok r)
    (hidx : r.firstDeviceIndex ≠ 0) :
    crossCheck policy client cfg instanceID = .error .deviceIndex := by
  simp [crossCheck, hskip, hclient, hidx]

/-- Witness for C4: a client reporting device index one fails the
cross-check of the base configuration. -/
theorem claim_C4_witness :
    basePluginConfig.skipEC2 = false ∧
    badIndexClient "test-instance" = .ok ⟨1, "ebs"⟩ ∧
    (CrossCheckResult.mk 1 "ebs").firstDeviceIndex ≠ 0 ∧
    crossCheck (fun _ => true) badIndexClient basePluginConfig "test-instance" =
      .error .deviceIndex := by
  refine ⟨rfl, rfl, by decide, ?_⟩
  exact claim_C4 (fun _ => true) badIndexClient basePluginConfig "test-instance"
    ⟨1, "ebs"⟩ rfl rfl (by decide)

/-- Claim C5: with the skip-cloud-cross-check toggle set, every
signature-valid claim attests as Valid with the rendered identity name,
the trace records that no inventory query was issued, and the outcome is
identical for every inventory client — including clients whose record
would fail the device-index check. -/
theorem claim_C5 (V : SigVerifier) (policy : StoragePolicy) (client : EC2Client)
    (cfg : PluginConfig) (req : AttestRequest) (payload : String)
    (ad : IIDAttestationData) (doc : InstanceIdentityDocument) (sigBytes : List Nat)
    (hreplay : req.attestedBefore = false)
    (hdata : req.attestationData = some ⟨pluginName, payload⟩)
    (hparse : parseAttestationData payload = some ad)
    (hdecode : base64Decode ad.signature = some sigBytes)
    (hverify : V.verify cfg.awsCaCertPublicKey ad.document sigBytes = true)
    (hdoc : parseInstanceIdentityDocument ad.document = some doc)
    (hskip : cfg.skipEC2 = true) :
    attestConfigured V policy client cfg req =
      (.ok ⟨renderIdentityName cfg.trustDomain cfg.pathTemplate doc, true⟩, ⟨true, false⟩) ∧
    (∀ client2 : EC2Client,
      attestConfigured V policy client2 cfg req = attestConfigured V policy client cfg req) := by
  constructor
  · simp [attestConfigured, signatureVerifier, crossCheck, hreplay, hdata, hparse, hdecode,
      hverify, hdoc, hskip]
  · intro client2
    simp [attestConfigured, signatureVerifier, crossCheck, hreplay, hdata, hparse, hdecode,
      hverify, hdoc, hskip]

set_option maxRecDepth 10000 in
/-- Witness for C5: with the cross-check disabled, the fixture payload
attests as Valid against a client whose record has a nonzero device
index. -/
theorem claim_C5_witness :
    validRequest.attestedBefore = false ∧
    validRequest.attestationData = some ⟨pluginName, testPayload⟩ ∧
    parseAttestationData testPayload = some ⟨testDocJson, "AAAA"⟩ ∧
    base64Decode "AAAA" = some [0, 0, 0] ∧
    passVerifier.verify skipEC2Config.awsCaCertPublicKey testDocJson [0, 0, 0] = true ∧
    parseInstanceIdentityDocument testDocJson = some testDoc ∧
    skipEC2Config.skipEC2 = true ∧
    attestConfigured passVerifier (fun _ => true) badIndexClient skipEC2Config validRequest =
      (.ok ⟨renderIdentityName skipEC2Config.trustDomain skipEC2Config.pathTemplate testDoc,
          true⟩, ⟨true, false⟩) := by
  refine ⟨rfl, rfl, by decide, by decide, by decide, by decide, rfl, ?_⟩
  exact (claim_C5 passVerifier (fun _ => true) badIndexClient skipEC2Config validRequest
    testPayload ⟨testDocJson, "AAAA"⟩ testDoc [0, 0, 0]
    rfl rfl (by decide) (by decide) (by decide) (by decide) rfl).1

/-- Claim C6: for every configuration text that parses and has a
nonempty trust domain, supplying exactly one of access key id and secret
access key fails with the credential-mismatch error in both directions;
supplying both succeeds (given a compiling template) with the explicit
values and without consulting the environment, and supplying neither
succeeds with the environment fallback. -/
theorem claim_C6 (getEnv : String → String) (gc : GlobalConfig) (text : String)
    (hcl : IIDAttestorConfig) (parts : List TemplatePart)
    (hparse : parseConfigText text = some hcl)
    (htd : gc.trustDomain ≠ "")
    (htmpl : parseTemplate (hcl.agentPathTemplate.getD defaultAgentPathTemplate) = some parts) :
    (∀ a, hcl.accessKeyID = some a → hcl.secretAccessKey = none →
      configure getEnv ⟨text, some gc⟩ = .error
        (.credentialMismatch "configuration missing secret access key, but has access key id")) ∧
    (∀ s, hcl.accessKeyID = none → hcl.secretAccessKey = some s →
      configure getEnv ⟨text, some gc⟩ = .error
        (.credentialMismatch "configuration missing access key id, but has secret access key")) ∧
    (∀ a s, hcl.accessKeyID = some a → hcl.secretAccessKey = some s →
      configure getEnv ⟨text, some gc⟩ =
        .ok ⟨gc.trustDomain, parts, hcl.skipEC2AttestCalling, hcl.skipBlockDevice,
          some (a, s), awsCaCertPublicKeyHandle⟩ ∧
      (∀ getEnv2 : String → String,
        configure getEnv2 ⟨text, some gc⟩ = configure getEnv ⟨text, some gc⟩)) ∧
    (hcl.accessKeyID = none → hcl.secretAccessKey = none →
      configure getEnv ⟨text, some gc⟩ =
        .ok ⟨gc.trustDomain, parts, hcl.skipEC2AttestCalling, hcl.skipBlockDevice,
          (if getEnv accessKeyIDVarName ≠ "" ∧ getEnv secretAccessKeyVarName ≠ ""
            then some (getEnv accessKeyIDVarName, getEnv secretAccessKeyVarName) else none),
          awsCaCertPublicKeyHandle⟩) := by
  refine ⟨?_, ?_, ?_, ?_⟩
  · intro a ha hs
    simp [configure, hparse, htd, resolveCredentials, ha, hs]
  · intro s ha hs
    simp [configure, hparse, htd, resolveCredentials, ha, hs]
  · intro a s ha hs
    constructor
    · simp [configure, hparse, htd, resolveCredentials, ha, hs, htmpl]
    · intro getEnv2
      simp [configure, hparse, htd, resolveCredentials, ha, hs, htmpl]
  · intro ha hs
    simp [configure, hparse, htd, resolveCredentials, ha, hs, htmpl]

/-- Witness for C6: the configuration text supplying only the access key
id parses, and configuring with it under trust domain `example.org` fails
with the credential-mismatch message of the test suite. -/
theorem claim_C6_witness :
    parseConfigText "access_key_id = \"ACCESSKEYID\"" =
      some ⟨some "ACCESSKEYID", none, none, false, false⟩ ∧
    (GlobalConfig.mk "example.org").trustDomain ≠ "" ∧
    configure (fun _ => "") ⟨"access_key_id = \"ACCESSKEYID\"", some ⟨"example.org"⟩⟩ =
      .error (.credentialMismatch
        "configuration missing secret access key, but has access key id") := by
  refine ⟨by decide, by decide, ?_⟩
  exact (claim_C6 (fun _ => "") ⟨"example.org"⟩ "access_key_id = \"ACCESSKEYID\""
    ⟨some "ACCESSKEYID", none, none, false, false⟩ defaultTemplateParts
    (by decide) (by decide) (by decide)).1 "ACCESSKEYID" rfl rfl

/-- Claim C7: a fresh, well-typed request whose payload bytes fail to
parse as the JSON envelope is rejected with the malformed-payload error;
in particular the empty byte sequence and a truncated JSON object both
fail to parse. -/
theorem claim_C7 (V : SigVerifier) (policy : StoragePolicy) (client : EC2Client)
    (cfg : PluginConfig) (req : AttestRequest) (payload : String)
    (hreplay : req.attestedBefore = false)
    (hdata : req.attestationData = some ⟨pluginName, payload⟩)
    (hparse : parseAttestationData payload = none) :
    attestConfigured V policy client cfg req = (.error .malformedPayload, ⟨true, false⟩) ∧
    parseAttestationData "" = none ∧
    parseAttestationData "\x7b\"document\"" = none := by
  refine ⟨?_, rfl, by decide⟩
  simp [attestConfigured, signatureVerifier, hreplay, hdata, hparse]

/-- Witness for C7: the empty payload is rejected as malformed. -/
theorem claim_C7_witness :
    (AttestRequest.mk (some ⟨pluginName, ""⟩) false).attestedBefore = false ∧
    parseAttestationData "" = none ∧
    attestConfigured passVerifier (fun _ => true) okClient basePluginConfig
      ⟨some ⟨pluginName, ""⟩, false⟩ = (.error .malformedPayload, ⟨true, false⟩) := by
  refine ⟨rfl, rfl, ?_⟩
  exact (claim_C7 passVerifier (fun _ => true) okClient basePluginConfig
    ⟨some ⟨pluginName, ""⟩, false⟩ "" rfl rfl rfl).1

/-- The reordering template of the test suite's last scenario, with the
region before the account. -/
def reorderTemplate : String :=
  "\x7b\x7b.PluginName\x7d\x7d/\x7b\x7b.Region\x7d\x7d/\x7b\x7b.AccountID\x7d\x7d/\x7b\x7b.InstanceID\x7d\x7d"

/-- The compiled form of the reordering template. -/
def reorderTemplateParts : List TemplatePart :=
  [.fieldPluginName, .lit '/', .fieldRegion, .lit '/', .fieldAccountID, .lit '/',
    .fieldInstanceID]

/-- Claim C8: for the fixture claim under trust domain `example.org`, the
Identity Renderer with the compiled default template produces exactly
`spiffe://example.org/spire/agent/aws_iid/test-account/test-region/test-instance`,
and with the compiled reordering template — region before account —
produces exactly
`spiffe://example.org/spire/agent/aws_iid/test-region/test-account/test-instance`. -/
theorem claim_C8 :
    parseTemplate defaultAgentPathTemplate = some defaultTemplateParts ∧
    renderIdentityName "example.org" defaultTemplateParts testDoc =
      "spiffe://example.org/spire/agent/aws_iid/test-account/test-region/test-instance" ∧
    parseTemplate reorderTemplate = some reorderTemplateParts ∧
    renderIdentityName "example.org" reorderTemplateParts testDoc =
      "spiffe://example.org/spire/agent/aws_iid/test-region/test-account/test-instance" := by
  exact ⟨by decide, by decide, by decide, by decide⟩

/-- Claim C9: in the `Idle` state — before any successful Config Resolver
run — every attestation attempt fails with the not-configured error and
reaches no component; a successful configuration run transitions the
plugin state to the produced configuration, and a failed one leaves the
state unchanged. -/
theorem claim_C9 :
    (∀ (V : SigVerifier) (policy : StoragePolicy) (client : EC2Client) (req : AttestRequest),
      attestPlugin V policy client none req = (.error .notConfigured, ⟨false, false⟩) ∧
      attestErrorMessage .notConfigured = "not configured") ∧
    (∀ (st : Option PluginConfig) (getEnv : String → String) (req : ConfigureRequest),
      (∀ cfg, configure getEnv req = .ok cfg → (pluginConfigure st getEnv req).2 = some cfg) ∧
      (∀ e, configure getEnv req = .error e → (pluginConfigure st getEnv req).2 = st)) := by
  refine ⟨fun V policy client req => ⟨rfl, rfl⟩, fun st getEnv req => ⟨?_, ?_⟩⟩
  · intro cfg h
    simp [pluginConfigure, h]
  · intro e h
    simp [pluginConfigure, h]

/-- Witness for C9: the unconfigured plugin rejects the fixture request
as not configured, and configuring with empty text under trust domain
`example.org` moves the state to the base configuration. -/
theorem claim_C9_witness :
    attestPlugin passVerifier (fun _ => true) okClient none validRequest =
      (.error .notConfigured, ⟨false, false⟩) ∧
    configure (fun _ => "") ⟨"", some ⟨"example.org"⟩⟩ = .ok basePluginConfig ∧
    (pluginConfigure none (fun _ => "") ⟨"", some ⟨"example.org"⟩⟩).2 =
      some basePluginConfig := by
  refine ⟨(claim_C9.1 passVerifier (fun _ => true) okClient validRequest).1, rfl, ?_⟩
  exact (claim_C9.2 none (fun _ => "") ⟨"", some ⟨"example.org"⟩⟩).1
    basePluginConfig rfl

/-- Claim C10: in the bundle-set command, an empty `-id` flag fails with
`id is required` before any registration API call; once the fetch of the
existing bundle is reached, any fetch error whatsoever leads to
CreateFederatedBundle being attempted and never UpdateFederatedBundle,
while a successful fetch leads to UpdateFederatedBundle being attempted
and never CreateFederatedBundle. -/
theorem claim_C10 (env : SetEnvironment) (clients : SetClients) (c : SetCommand) :
    (c.id = "" → setRun env clients c = (.error "id is required", ⟨false, false, false⟩)) ∧
    (∀ id dat certs, c.id ≠ "" → env.normalizeSpiffeID c.id = .ok id →
      env.loadParamData = .ok dat → env.parseCertificates dat = .ok certs →
      ((∀ e, clients.fetchFederatedBundle c.id = .error e →
        (setRun env clients c).2.createCalled = true ∧
        (setRun env clients c).2.updateCalled = false) ∧
      (clients.fetchFederatedBundle c.id = .ok () →
        (setRun env clients c).2.updateCalled = true ∧
        (setRun env clients c).2.createCalled = false))) := by
  constructor
  · intro h
    simp [setRun, h]
  · intro id dat certs hid hnorm hload hcerts
    constructor
    · intro e hfetch
      cases hupd : clients.createFederatedBundle ⟨id, certs.flatten⟩ <;>
        simp [setRun, hid, hnorm, hload, hcerts, hfetch, hupd]
    · intro hfetch
      cases hupd : clients.updateFederatedBundle ⟨id, certs.flatten⟩ <;>
        simp [setRun, hid, hnorm, hload, hcerts, hfetch, hupd]

/-- A bundle-set environment whose collaborators all succeed. -/
def okSetEnvironment : SetEnvironment :=
  ⟨fun s => .ok s, .ok "data", fun _ => .ok [[1, 2]]⟩

/-- A registration client whose fetch fails with a transport error and
whose create and update succeed. -/
def fetchFailClients : SetClients :=
  ⟨fun _ => .error "transport failure", fun _ => .ok (), fun _ => .ok ()⟩

/-- Witness for C10: with a transport-failing fetch, the command attempts
the create call and not the update call; with an empty id it fails before
any call. -/
theorem claim_C10_witness :
    (SetCommand.mk "" "").id = "" ∧
    setRun okSetEnvironment fetchFailClients ⟨"", ""⟩ =
      (.error "id is required", ⟨false, false, false⟩) ∧
    (SetCommand.mk "spiffe://other.org" "").id ≠ "" ∧
    okSetEnvironment.normalizeSpiffeID "spiffe://other.org" = .ok "spiffe://other.org" ∧
    okSetEnvironment.loadParamData = .ok "data" ∧
    okSetEnvironment.parseCertificates "data" = .ok [[1, 2]] ∧
    fetchFailClients.fetchFederatedBundle "spiffe://other.org" = .error "transport failure" ∧
    (setRun okSetEnvironment fetchFailClients ⟨"spiffe://other.org", ""⟩).2.createCalled = true ∧
    (setRun okSetEnvironment fetchFailClients ⟨"spiffe://other.org", ""⟩).2.updateCalled =
      false := by
  refine ⟨rfl, (claim_C10 okSetEnvironment fetchFailClients ⟨"", ""⟩).1 rfl, by decide,
    rfl, rfl, rfl, rfl, ?_, ?_⟩
  · exact (((claim_C10 okSetEnvironment fetchFailClients ⟨"spiffe://other.org", ""⟩).2
      "spiffe://other.org" "data" [[1, 2]] (by decide) rfl rfl rfl).1
      "transport failure" rfl).1
  · exact (((claim_C10 okSetEnvironment fetchFailClients ⟨"spiffe://other.org", ""⟩).2
      "spiffe://other.org" "data" [[1, 2]] (by decide) rfl rfl rfl).1
      "transport failure" rfl).2

end Spire
